import Mathlib

/-!
# Verification of the sudoku board module (`puzzle.c`, `main.c`)

Shallow embedding of the C sudoku board editor.  The board state consists of
two `10 × 10` static tables (indices `0 .. 9`; only `1 .. 9` are meant to be
used): `puzzle[i][j]` holding the digit at row `i`, column `j` (`0` = free)
and `fixed[i][j]` telling whether that cell was part of the initial layout.
We model the two tables as total functions on `Int` (the C index type);
indices outside `0 .. 9` never arise in guarded code paths.

C functions that can fall off the end of a non-`void` function without
executing a `return` (undefined behaviour) are embedded with result type
`Option Bool` / `Option _`, where `none` marks exactly those executions.
-/

/-- The mutable state of `puzzle.c`: the `puzzle` digit table and the
`fixed` flag table. -/
structure Puzzle where
  puzzle : Int → Int → Int
  fixed : Int → Int → Bool

/-- The C process starts with both static tables zero-initialized:
every digit `0`, every flag `FALSE`. -/
def emptyPuzzle : Puzzle := ⟨fun _ _ => 0, fun _ _ => false⟩

/-- The `op_result` enumeration from `puzzle.h`, as used by `puzzle.c` and
`main.c`: `OP_OK`, `OP_BADARGS`, `OP_OCCUPIED`, `OP_ILLEGAL`, `OP_EMPTY`,
`OP_FIXED`. -/
inductive op_result where
  | OP_OK
  | OP_BADARGS
  | OP_OCCUPIED
  | OP_ILLEGAL
  | OP_EMPTY
  | OP_FIXED
deriving DecidableEq, Repr

/-- The single-cell store `puzzle[r][c] = v`. -/
def setP (s : Puzzle) (r c v : Int) : Puzzle :=
  { s with puzzle := fun i j => if i = r ∧ j = c then v else s.puzzle i j }

/-- The single-cell store `fixed[r][c] = b`. -/
def setF (s : Puzzle) (r c : Int) (b : Bool) : Puzzle :=
  { s with fixed := fun i j => if i = r ∧ j = c then b else s.fixed i j }

/-- C `in_range`: returns `TRUE` iff `1 <= value && value <= 9`. -/
def in_range (value : Int) : Bool :=
  if value ≥ 1 ∧ value ≤ 9 then true else false

/-- C `init_puzzle`.  The two loops carry no braces: the inner `for` statement
is only `puzzle[i][j] = 0;`, and `fixed[i][j] = FALSE;` executes once after
both loops have finished, when `i = 10` and `j = 10`.  So the digits of
rows/columns `1 .. 9` are cleared, and the only `fixed` entry written is
`fixed[10][10]`. -/
def init_puzzle (s : Puzzle) : Puzzle :=
  { puzzle := fun i j => if 1 ≤ i ∧ i ≤ 9 ∧ 1 ≤ j ∧ j ≤ 9 then 0 else s.puzzle i j,
    fixed := fun i j => if i = 10 ∧ j = 10 then false else s.fixed i j }

/-- C `row_contains`: `for (i = 1; i < 10; i++) { if (puzzle[row][i] == digit)
return TRUE; else return FALSE; }`.  Both branches of the loop body return, so
the loop exits during its first iteration (`i = 1`): only `puzzle[row][1]` is
ever examined. -/
def row_contains (s : Puzzle) (row digit : Int) : Bool :=
  if s.puzzle row 1 = digit then true else false

/-- C `col_contains`: same early-return shape as `row_contains`; the first
iteration (`i = 1`) returns, so only `puzzle[1][col]` is examined. -/
def col_contains (s : Puzzle) (col digit : Int) : Bool :=
  if s.puzzle 1 col = digit then true else false

/-- One 3x3 block scan from `region_search`: rows `rlo .. rlo+2`, columns
`clo .. clo+2`, returning `TRUE` as soon as a cell equals `digit` (the loop
short-circuits only on a match). -/
def scan3x3 (s : Puzzle) (rlo clo digit : Int) : Bool :=
  decide (s.puzzle rlo clo = digit) ||
  decide (s.puzzle rlo (clo + 1) = digit) ||
  decide (s.puzzle rlo (clo + 2) = digit) ||
  decide (s.puzzle (rlo + 1) clo = digit) ||
  decide (s.puzzle (rlo + 1) (clo + 1) = digit) ||
  decide (s.puzzle (rlo + 1) (clo + 2) = digit) ||
  decide (s.puzzle (rlo + 2) clo = digit) ||
  decide (s.puzzle (rlo + 2) (clo + 1) = digit) ||
  decide (s.puzzle (rlo + 2) (clo + 2) = digit)

/-- C `region_search`: nine sequential `if (region == k) for ... if
(puzzle[i][j] == digit) return TRUE;` statements.  When no cell of the
selected region equals `digit` (or `region` is not `1 .. 9`), control falls
off the end of the non-void function without a `return`: that undefined
execution is `none`. -/
def region_search (s : Puzzle) (region digit : Int) : Option Bool :=
  if region = 1 ∧ scan3x3 s 1 1 digit then some true
  else if region = 2 ∧ scan3x3 s 1 4 digit then some true
  else if region = 3 ∧ scan3x3 s 1 7 digit then some true
  else if region = 4 ∧ scan3x3 s 4 1 digit then some true
  else if region = 5 ∧ scan3x3 s 4 4 digit then some true
  else if region = 6 ∧ scan3x3 s 4 7 digit then some true
  else if region = 7 ∧ scan3x3 s 7 1 digit then some true
  else if region = 8 ∧ scan3x3 s 7 4 digit then some true
  else if region = 9 ∧ scan3x3 s 7 7 digit then some true
  else none

/-- C `region_contains`: a chain of band tests.  Every region branch calls
`region_search(k, digit)` but discards the returned value and then falls off
the end of the function without a `return` — that undefined execution is
`none`.  The region-9 test is `(row >= 7 && row <= 9) && (col >= 7 && col >=
9)` in the source: both column comparisons point the same way, so columns 7
and 8 of the bottom band fail every branch and reach the final
`return FALSE`. -/
def region_contains (s : Puzzle) (row col digit : Int) : Option Bool :=
  if row ≥ 1 ∧ row ≤ 3 ∧ col ≥ 1 ∧ col ≤ 3 then
    let _ := region_search s 1 digit; none
  else if row ≥ 1 ∧ row ≤ 3 ∧ col ≥ 4 ∧ col ≤ 6 then
    let _ := region_search s 2 digit; none
  else if row ≥ 1 ∧ row ≤ 3 ∧ col ≥ 7 ∧ col ≤ 9 then
    let _ := region_search s 3 digit; none
  else if row ≥ 4 ∧ row ≤ 6 ∧ col ≥ 1 ∧ col ≤ 3 then
    let _ := region_search s 4 digit; none
  else if row ≥ 4 ∧ row ≤ 6 ∧ col ≥ 4 ∧ col ≤ 6 then
    let _ := region_search s 5 digit; none
  else if row ≥ 4 ∧ row ≤ 6 ∧ col ≥ 7 ∧ col ≤ 9 then
    let _ := region_search s 6 digit; none
  else if row ≥ 7 ∧ row ≤ 9 ∧ col ≥ 1 ∧ col ≤ 3 then
    let _ := region_search s 7 digit; none
  else if row ≥ 7 ∧ row ≤ 9 ∧ col ≥ 4 ∧ col ≤ 6 then
    let _ := region_search s 8 digit; none
  else if row ≥ 7 ∧ row ≤ 9 ∧ col ≥ 7 ∧ col ≥ 9 then
    let _ := region_search s 9 digit; none
  else
    some false

/-- Modelled from the spec: `regionContains` as the spec defines it — a
direct scan of the 3x3 block containing `(row, col)`, the block computed by
integer-division band arithmetic (`regionRow = (row-1)/3`,
`regionCol = (col-1)/3`).  Used only to compare the C `region_contains`
against the specified behaviour. -/
def region_contains_direct (s : Puzzle) (row col digit : Int) : Bool :=
  scan3x3 s (3 * ((row - 1) / 3) + 1) (3 * ((col - 1) / 3) + 1) digit

/-- C `add_digit` (the interactive place operation).  The branch
`else if (region_contains(row, col, digit))` reads the return value of
`region_contains`; when that call falls off the end of its function the value
used is indeterminate, so this execution of `add_digit` is undefined
(`none`). -/
def add_digit (s : Puzzle) (row col digit : Int) : Option (op_result × Puzzle) :=
  if !in_range row || !in_range col || !in_range digit then
    some (.OP_BADARGS, s)
  else if s.puzzle row col ≠ 0 then
    some (.OP_OCCUPIED, s)
  else if row_contains s row digit || col_contains s col digit then
    some (.OP_ILLEGAL, s)
  else
    match region_contains s row col digit with
    | none => none
    | some true => some (.OP_ILLEGAL, s)
    | some false => some (.OP_OK, setP s row col digit)

/-- C `erase_digit` (the interactive erase operation). -/
def erase_digit (s : Puzzle) (row col : Int) : op_result × Puzzle :=
  if !in_range row || !in_range col then
    (.OP_BADARGS, s)
  else if s.puzzle row col = 0 then
    (.OP_EMPTY, s)
  else if s.fixed row col = true then
    (.OP_FIXED, s)
  else
    (.OP_OK, setP s row col 0)

/-- Outcome of one iteration of the C `configure` loop: either the updated
board, or process termination through `exit(code)`. -/
inductive config_result where
  | ok (s : Puzzle)
  | exited (code : Int)

/-- One iteration of the C `configure` loop on a line read by `fgets`, given
the first four character codes `c0 c1 c2 c3` of the line.  The source
computes `row = line_in[0] - 48`, `col`, `digit` likewise, and on every
violation prints a message and calls `exit(1)` (modelled `.exited 1`);
otherwise it stores the digit and marks the cell fixed.  As in `add_digit`,
the region-conflict branch reads the undefined return value of
`region_contains`, so that execution is `none`. -/
def configure_line (s : Puzzle) (c0 c1 c2 c3 : Int) : Option config_result :=
  if c3 ≠ 10 then
    some (.exited 1)
  else if !in_range (c0 - 48) || !in_range (c1 - 48) || !in_range (c2 - 48) then
    some (.exited 1)
  else if s.puzzle (c0 - 48) (c1 - 48) ≠ 0 then
    some (.exited 1)
  else if row_contains s (c0 - 48) (c2 - 48) || col_contains s (c1 - 48) (c2 - 48) then
    some (.exited 1)
  else
    match region_contains s (c0 - 48) (c1 - 48) (c2 - 48) with
    | none => none
    | some true => some (.exited 1)
    | some false =>
      some (.ok (setF (setP s (c0 - 48) (c1 - 48) (c2 - 48)) (c0 - 48) (c1 - 48) true))

/-- An interactive operation aimed at one cell `(r, c)`: place some digit, or
erase. -/
inductive cell_op where
  | placeOp (digit : Int)
  | eraseOp
deriving DecidableEq, Repr

/-- Run one `cell_op` against the board, keeping the successor state (when
`add_digit` is undefined the state is left as is; on the fixed
cells this case never arises, since `add_digit` returns before any contains
query). -/
def apply_cell_op (r c : Int) (s : Puzzle) : cell_op → Puzzle
  | .placeOp d =>
    match add_digit s r c d with
    | some (_, s2) => s2
    | none => s
  | .eraseOp => (erase_digit s r c).2

/-- Run a sequence of `cell_op`s against the board. -/
def apply_cell_ops (r c : Int) (s : Puzzle) : List cell_op → Puzzle
  | [] => s
  | op :: rest => apply_cell_ops r c (apply_cell_op r c s op) rest

/-- A board holding one seeded (fixed) digit 3 at `(1,1)`, as in the
end-to-end scenario. -/
def seededPuzzle : Puzzle := setF (setP emptyPuzzle 1 1 3) 1 1 true

/-- A board whose row 1 holds digit 5 at column 2 only. -/
def rowBoard : Puzzle := setP emptyPuzzle 1 2 5

/-- A board whose column 1 holds digit 5 at row 2 only. -/
def colBoard : Puzzle := setP emptyPuzzle 2 1 5

/-- A board holding digit 5 at `(7,7)` only. -/
def regionBoard : Puzzle := setP emptyPuzzle 7 7 5

/-! ## General lemmas about the embedded operations -/

/-- `in_range` decides membership in `1 .. 9`. -/
theorem in_range_iff (v : Int) : in_range v = true ↔ 1 ≤ v ∧ v ≤ 9 := by
  unfold in_range
  split <;> simp_all

/-- Inversion of a successful `add_digit`: all three arguments were in
range, the target cell was empty, and the successor state is exactly the
single-cell update. -/
theorem add_digit_ok_inv (s s1 : Puzzle) (r c d : Int)
    (h : add_digit s r c d = some (op_result.OP_OK, s1)) :
    in_range r = true ∧ in_range c = true ∧ in_range d = true ∧
    s.puzzle r c = 0 ∧ s1 = setP s r c d := by
  unfold add_digit at h
  split at h
  · simp at h
  next h1 =>
    split at h
    · simp at h
    next h2 =>
      split at h
      · simp at h
      next h3 =>
        split at h
        · simp at h
        · simp at h
        · simp only [Option.some.injEq, Prod.mk.injEq] at h
          simp at h1 h2
          exact ⟨h1.1.1, h1.1.2, h1.2, h2, h.2.symm⟩

/-! ## Claim theorems -/

/-- Claim C1: the spec requires `rowContains` / `colContains` to scan all 9
positions of the row / column and answer whether any holds the digit.  The C
`row_contains` and `col_contains` loops return in their first iteration, so a
digit present at row 1 column 2 (resp. row 2 column 1) is not found: the scan
concludes absence after examining only the first position, contradicting the
functions' own header comments (`Returns TRUE iff the given row has the given
digit in it`). -/
theorem contains_scan_stops_at_first_cell :
    rowBoard.puzzle 1 2 = 5 ∧ row_contains rowBoard 1 5 = false ∧
    colBoard.puzzle 2 1 = 5 ∧ col_contains colBoard 1 5 = false := by decide

/-- Claim C2: the spec requires `regionContains(r, c, d)` to agree with a
direct scan of the 3x3 block containing `(r, c)` for all 81 cells, including
the boundary cell `(7,7)`.  On a board whose cell `(7,7)` holds 5, the direct
block scan finds the digit, but the C `region_contains(7,7,5)` answers
`FALSE`: the region-9 test `col >= 7 && col >= 9` fails for column 7, every
other branch also fails, and control reaches the final `return FALSE`. -/
theorem region_contains_boundary_divergence :
    region_contains_direct regionBoard 7 7 5 = true ∧
    region_contains regionBoard 7 7 5 = some false := by decide

/-- Claim C3: the row/column/region uniqueness invariants are supposed to be
preserved by every `place`.  Starting from the empty board (which satisfies
them), `add_digit 7 7 5` succeeds and then `add_digit 7 8 5` also succeeds —
`row_contains` examines only column 1, `col_contains` only row 1, and
`region_contains` answers `FALSE` for columns 7 and 8 of the bottom band —
leaving digit 5 twice in row 7 (and twice in the bottom-right region). -/
theorem place_sequence_breaks_uniqueness :
    add_digit emptyPuzzle 7 7 5 = some (op_result.OP_OK, setP emptyPuzzle 7 7 5) ∧
    add_digit (setP emptyPuzzle 7 7 5) 7 8 5
      = some (op_result.OP_OK, setP (setP emptyPuzzle 7 7 5) 7 8 5) ∧
    (setP (setP emptyPuzzle 7 7 5) 7 8 5).puzzle 7 7 = 5 ∧
    (setP (setP emptyPuzzle 7 7 5) 7 8 5).puzzle 7 8 = 5 :=
  ⟨rfl, rfl, by decide, by decide⟩

/-- Claim C4: `initialize` is supposed to set every cell's digit to 0 and
fixed flag to false for every prior board state.  Because the loop bodies of
`init_puzzle` carry no braces, `fixed[i][j] = FALSE` runs once, after the
loops, with `i = j = 10`: starting from a state whose cell `(1,1)` is fixed,
`init_puzzle` clears the digit but leaves the fixed flag `TRUE`,
contradicting the function's own header comment (`(b) none of the values are
fixed`). -/
theorem init_puzzle_leaves_fixed_flag :
    (init_puzzle seededPuzzle).puzzle 1 1 = 0 ∧
    (init_puzzle seededPuzzle).fixed 1 1 = true := by decide

/-- Claim C5: a fixed, non-empty cell is protected — any in-range place on it
returns `OP_OCCUPIED`, any erase returns `OP_FIXED`, and any sequence of
place/erase operations aimed at it leaves the entire board (hence the cell's
digit and fixed status) unchanged. -/
theorem fixed_cell_protected (s : Puzzle) (r c : Int)
    (hr : in_range r = true) (hc : in_range c = true)
    (hf : s.fixed r c = true) (hne : s.puzzle r c ≠ 0) :
    (∀ d, in_range d = true → add_digit s r c d = some (op_result.OP_OCCUPIED, s)) ∧
    erase_digit s r c = (op_result.OP_FIXED, s) ∧
    ∀ ops : List cell_op, apply_cell_ops r c s ops = s := by
  have hocc : ∀ d, in_range d = true →
      add_digit s r c d = some (op_result.OP_OCCUPIED, s) := by
    intro d hd
    unfold add_digit
    rw [if_neg (by simp [hr, hc, hd]), if_pos hne]
  have hbad : ∀ d, in_range d = false →
      add_digit s r c d = some (op_result.OP_BADARGS, s) := by
    intro d hd
    unfold add_digit
    rw [if_pos (by simp [hd])]
  have herase : erase_digit s r c = (op_result.OP_FIXED, s) := by
    unfold erase_digit
    rw [if_neg (by simp [hr, hc]), if_neg hne, if_pos hf]
  have hstep : ∀ op, apply_cell_op r c s op = s := by
    intro op
    cases op with
    | placeOp d =>
      cases hd : in_range d with
      | true => simp [apply_cell_op, hocc d hd]
      | false => simp [apply_cell_op, hbad d hd]
    | eraseOp => simp [apply_cell_op, herase]
  refine ⟨hocc, herase, ?_⟩
  intro ops
  induction ops with
  | nil => rfl
  | cons op rest ih =>
    show apply_cell_ops r c (apply_cell_op r c s op) rest = s
    rw [hstep op]
    exact ih

/-- Witness for C5 at the seeded board: cell `(1,1)` holds fixed digit 3;
placing 7 there, erasing it, and the two-operation sequence all leave the
board untouched. -/
theorem fixed_cell_protected_witness :
    add_digit seededPuzzle 1 1 7 = some (op_result.OP_OCCUPIED, seededPuzzle) ∧
    erase_digit seededPuzzle 1 1 = (op_result.OP_FIXED, seededPuzzle) ∧
    apply_cell_ops 1 1 seededPuzzle [cell_op.eraseOp, cell_op.placeOp 7] = seededPuzzle := by
  obtain ⟨h1, h2, h3⟩ :=
    fixed_cell_protected seededPuzzle 1 1 (by decide) (by decide) (by decide) (by decide)
  exact ⟨h1 7 (by decide), h2, h3 _⟩

/-- Counterexample to claim C6: the claim says the seeding operation, on a
precondition violation, returns a distinguishable failure to the caller
rather than terminating.  On the configuration line `"015\n"` (character
codes 48 49 53 10), the row value 0 is out of range and the C `configure`
prints a message and calls `exit(1)` — the iteration terminates the process
instead of returning an `op_result`. -/
theorem configure_exits_on_out_of_range_seed :
    configure_line emptyPuzzle 48 49 53 10 = some (config_result.exited 1) := rfl

/-- Claim C6 (amended): `add_digit` and `erase_digit` do return their
outcomes as tagged `op_result` values, but the seeding routine `configure`,
on a format, range, occupied-cell, or row/column-conflict violation,
terminates the process with `exit(1)` instead of returning a failure to the
caller. -/
theorem configure_violation_exits (s : Puzzle) (c0 c1 c2 c3 : Int)
    (h : c3 ≠ 10 ∨ in_range (c0 - 48) = false ∨ in_range (c1 - 48) = false ∨
      in_range (c2 - 48) = false ∨ s.puzzle (c0 - 48) (c1 - 48) ≠ 0 ∨
      row_contains s (c0 - 48) (c2 - 48) = true ∨
      col_contains s (c1 - 48) (c2 - 48) = true) :
    configure_line s c0 c1 c2 c3 = some (config_result.exited 1) := by
  unfold configure_line
  by_cases h3 : c3 ≠ 10
  · rw [if_pos h3]
  · rw [if_neg h3]
    by_cases hir : (!in_range (c0 - 48) || !in_range (c1 - 48) || !in_range (c2 - 48)) = true
    · rw [if_pos hir]
    · rw [if_neg hir]
      by_cases hocc : s.puzzle (c0 - 48) (c1 - 48) ≠ 0
      · rw [if_pos hocc]
      · rw [if_neg hocc]
        by_cases hrc : (row_contains s (c0 - 48) (c2 - 48) ||
            col_contains s (c1 - 48) (c2 - 48)) = true
        · rw [if_pos hrc]
        · exfalso
          rcases h with h | h | h | h | h | h | h <;> simp_all

/-- Witness for the amended C6: the line `":15\n"` (codes 58 49 53 10) has
row value 10, out of range, and the configure iteration exits the process
with status 1. -/
theorem configure_violation_exits_witness :
    configure_line emptyPuzzle 58 49 53 10 = some (config_result.exited 1) :=
  configure_violation_exits emptyPuzzle 58 49 53 10 (Or.inr (Or.inl (by decide)))

/-- Claim C7: `add_digit` with any argument outside `1 .. 9` returns
`OP_BADARGS` and hands back the very same board state (both tables
untouched). -/
theorem place_out_of_range (s : Puzzle) (r c d : Int)
    (h : in_range r = false ∨ in_range c = false ∨ in_range d = false) :
    add_digit s r c d = some (op_result.OP_BADARGS, s) := by
  unfold add_digit
  rw [if_pos (show (!in_range r || !in_range c || !in_range d) = true by
    rcases h with h | h | h <;> simp [h])]

/-- Witness for C7: placing digit 5 at row 0 on the empty board returns
`OP_BADARGS` with the board unchanged. -/
theorem place_out_of_range_witness :
    add_digit emptyPuzzle 0 1 5 = some (op_result.OP_BADARGS, emptyPuzzle) :=
  place_out_of_range emptyPuzzle 0 1 5 (Or.inl (by decide))

/-- Claim C8: a successful `add_digit` on a never-fixed cell followed by
`erase_digit` on the same cell succeeds, restores every digit of the board to
its prior value (in particular the target cell back to empty), and leaves the
whole fixed table unchanged. -/
theorem place_then_erase (s s1 : Puzzle) (r c d : Int)
    (hf : s.fixed r c = false)
    (h : add_digit s r c d = some (op_result.OP_OK, s1)) :
    (erase_digit s1 r c).1 = op_result.OP_OK ∧
    ((erase_digit s1 r c).2).puzzle r c = 0 ∧
    (∀ i j, ((erase_digit s1 r c).2).puzzle i j = s.puzzle i j) ∧
    ((erase_digit s1 r c).2).fixed = s.fixed := by
  obtain ⟨hr, hc, hd, hempty, hs1⟩ := add_digit_ok_inv s s1 r c d h
  subst hs1
  have hd9 : 1 ≤ d ∧ d ≤ 9 := (in_range_iff d).mp hd
  have herase : erase_digit (setP s r c d) r c
      = (op_result.OP_OK, setP (setP s r c d) r c 0) := by
    unfold erase_digit
    rw [if_neg (by simp [hr, hc]), if_neg (by simp [setP]; omega),
      if_neg (by simp [setP, hf])]
  rw [herase]
  refine ⟨rfl, by simp [setP], ?_, rfl⟩
  intro i j
  by_cases hij : i = r ∧ j = c
  · obtain ⟨hi, hj⟩ := hij
    subst hi; subst hj
    simp [setP, hempty]
  · simp [setP, hij]

/-- Witness for C8: place 5 at the never-fixed cell `(7,7)` of the empty
board, then erase it — the erase succeeds, the cell is empty again, and the
fixed table is untouched. -/
theorem place_then_erase_witness :
    (erase_digit (setP emptyPuzzle 7 7 5) 7 7).1 = op_result.OP_OK ∧
    ((erase_digit (setP emptyPuzzle 7 7 5) 7 7).2).puzzle 7 7 = 0 ∧
    ((erase_digit (setP emptyPuzzle 7 7 5) 7 7).2).puzzle 7 8 = emptyPuzzle.puzzle 7 8 := by
  obtain ⟨h1, h2, h3, _⟩ :=
    place_then_erase emptyPuzzle (setP emptyPuzzle 7 7 5) 7 7 5 (by decide) rfl
  exact ⟨h1, h2, h3 7 8⟩

/-- Claim C9: when `add_digit` succeeds its only effect is to write the one
target cell's digit; in any state satisfying the fixed-implies-non-empty
invariant (true in every state the program can reach), the target cell is
non-fixed afterwards, every other digit is unchanged, and the whole fixed
table is unchanged. -/
theorem place_success_effect (s s1 : Puzzle) (r c d : Int)
    (hinv : s.fixed r c = true → s.puzzle r c ≠ 0)
    (h : add_digit s r c d = some (op_result.OP_OK, s1)) :
    s1.puzzle r c = d ∧ s1.fixed r c = false ∧
    (∀ i j, ¬(i = r ∧ j = c) → s1.puzzle i j = s.puzzle i j) ∧
    s1.fixed = s.fixed := by
  obtain ⟨hr, hc, hd, hempty, hs1⟩ := add_digit_ok_inv s s1 r c d h
  subst hs1
  have hfix : s.fixed r c = false := by
    cases hb : s.fixed r c with
    | false => rfl
    | true => exact absurd hempty (hinv hb)
  refine ⟨by simp [setP], ?_, ?_, rfl⟩
  · show s.fixed r c = false
    exact hfix
  · intro i j hij
    simp [setP, hij]

/-- Witness for C9: placing 3 at `(8,8)` on the empty board succeeds and its
effect is the single digit write, with the cell non-fixed afterwards. -/
theorem place_success_effect_witness :
    (setP emptyPuzzle 8 8 3).puzzle 8 8 = 3 ∧
    (setP emptyPuzzle 8 8 3).fixed 8 8 = false := by
  obtain ⟨h1, h2, _, _⟩ :=
    place_success_effect emptyPuzzle (setP emptyPuzzle 8 8 3) 8 8 3 (by decide) rfl
  exact ⟨h1, h2⟩

/-- Claim C10: the claim states that for in-range arguments every execution
of `region_contains` (and of the `region_search` it dispatches to) reaches an
explicit `return`.  In fact, for the in-range cell `(1,1)` the first branch
of `region_contains` discards the `region_search` result and control falls
off the end of the non-void function; `region_search(1, 1)` on the empty
board likewise falls off its end after its scans find nothing (`none` marks
those undefined executions). -/
theorem region_functions_fall_off_end :
    region_contains emptyPuzzle 1 1 1 = none ∧
    region_search emptyPuzzle 1 1 = none := by decide
